import Mathlib

/-!
Shallow embedding of `src/mephew_python_commons/logger_factory.py`
(`LoggerFactory` and its single operation `get_logger`), together with the
process-wide logger registry semantics of Python's `logging` module that the
code relies on.

Modelling conventions:
- Python log levels are natural numbers (NOTSET = 0 … CRITICAL = 50).
- The process-wide name→logger registry (`logging.getLogger`) is explicit
  state, threaded through `get_logger`; a logger absent from the registry is
  created with level NOTSET, `propagate = True` and no handlers, exactly as
  CPython does.  (`logging.getLogger("")` returns the root logger in CPython;
  here the empty name is an ordinary registry key, which raises no error in
  either semantics — the only fact the claims need.)
- `ConcurrentTimedRotatingFileHandler(...)` opens the target file in its
  constructor; filesystem failure is modelled by an environment `Env` telling
  which paths fail, and the constructor returns `Except`.
- `logging.StreamHandler()` called with no stream argument uses `sys.stderr`
  (documented CPython default); the stream handler therefore carries
  `StdStream.stderr`.
- The whole body of `get_logger` runs under `with self._lock`, so a call is
  one atomic step; a concurrent schedule of N calls is therefore some
  sequential order of the N atomic bodies, modelled by folding `get_logger`
  over an arbitrary list of calls (`runCalls`).
-/

namespace MPC

namespace logging

def NOTSET : Nat := 0

def DEBUG : Nat := 10

def INFO : Nat := 20

def WARNING : Nat := 30

def ERROR : Nat := 40

def CRITICAL : Nat := 50

end logging

/-- `logging.Formatter(fmt, datefmt)`: an immutable pair of pattern strings. -/
structure Formatter where
  fmt : String
  datefmt : String
deriving DecidableEq

/-- `LoggerFactory.DEFAULT_FILE_LOG_FORMATTER` from the source. -/
def DEFAULT_FILE_LOG_FORMATTER : Formatter :=
  { fmt := "%(name)s %(threadName)s; %(asctime)s; %(levelname)s; %(message)s"
    datefmt := "%Y-%m-%d %H:%M:%S" }

/-- `LoggerFactory.DEFAULT_STREAM_LOG_FORMATTER` from the source. -/
def DEFAULT_STREAM_LOG_FORMATTER : Formatter :=
  { fmt := "%(name)s %(threadName)s; %(asctime)s; %(levelname)s; %(message)s"
    datefmt := "%H:%M:%S" }

/-- The two process-wide standard streams a `StreamHandler` can target. -/
inductive StdStream where
  | stdout
  | stderr
deriving DecidableEq

/-- State of a `ConcurrentTimedRotatingFileHandler` as far as the claims
observe it: target path, rotation spec, retention, encoding, the formatter
installed by `setFormatter`, and the handler-level filter installed by
`setLevel` (NOTSET = no filter, the `logging.Handler` default). -/
structure FileHandlerData where
  filename : String
  whenSpec : String
  backupCount : Int
  encoding : String
  formatter : Option Formatter
  level : Nat
deriving DecidableEq

/-- A handler attached to a logger: rotating file handler or stream handler. -/
inductive Handler where
  | file (data : FileHandlerData)
  | stream (stream : StdStream) (formatter : Option Formatter) (level : Nat)
deriving DecidableEq

/-- `handler.setFormatter(f)`. -/
def Handler.setFormatter : Handler → Formatter → Handler
  | Handler.file d, f => Handler.file { d with formatter := some f }
  | Handler.stream s _ lv, f => Handler.stream s (some f) lv

/-- `handler.setLevel(lv)`. -/
def Handler.setLevel : Handler → Nat → Handler
  | Handler.file d, lv => Handler.file { d with level := lv }
  | Handler.stream s f _, lv => Handler.stream s f lv

/-- A `logging.Logger`: name, minimum level, attached handlers, propagate. -/
structure Logger where
  name : String
  level : Nat
  handlers : List Handler
  propagate : Bool
deriving DecidableEq

/-- A logger newly created by the registry: level NOTSET, no handlers,
`propagate = True` (CPython defaults). -/
def freshLogger (n : String) : Logger :=
  { name := n, level := logging.NOTSET, handlers := [], propagate := true }

/-- The process-wide name→logger registry, as explicit state. -/
abbrev Registry := List (String × Logger)

def lookupLogger : Registry → String → Option Logger
  | [], _ => none
  | (m, l) :: rest, n => if m = n then some l else lookupLogger rest n

/-- Write back the (mutated) logger object under its name. -/
def setLogger : Registry → String → Logger → Registry
  | [], n, l => [(n, l)]
  | (m, x) :: rest, n, l =>
      if m = n then (n, l) :: rest else (m, x) :: setLogger rest n l

/-- `logging.getLogger(name)`: look up, creating on a miss. -/
def getLogger (reg : Registry) (name : String) : Logger × Registry :=
  match lookupLogger reg name with
  | some l => (l, reg)
  | none => (freshLogger name, reg ++ [(name, freshLogger name)])

/-- The filesystem environment: which target paths fail to open. -/
structure Env where
  failingPaths : String → Bool

/-- An environment in which every file creation succeeds. -/
def noFail : Env := { failingPaths := fun _ => false }

/-- The I/O error raised by a failed rotating-file-handler construction. -/
structure IOErr where
  path : String
deriving DecidableEq

/-- The factory's immutable configuration (`LoggerFactory.__init__` stores the
five arguments verbatim; the lock is represented by the atomicity of
`get_logger`).  No argument is validated. -/
structure LoggerFactory where
  log_files_prefix : String
  backup_count : Int
  encoding : String
  file_log_formatter : Formatter
  stream_log_formatter : Formatter
deriving DecidableEq

/-- Python `x or d` restricted to `str | None` operands: `None` and the empty
string are falsy, any other string is returned unchanged. -/
def pyStrOr (x : Option String) (dflt : String) : String :=
  match x with
  | some s => if s = "" then dflt else s
  | none => dflt

/-- `log_file_name or f"{self._log_files_prefix}.log"`. -/
def finalLogFileName (self : LoggerFactory) (log_file_name : Option String) : String :=
  pyStrOr log_file_name ( LoggerFactory.log_files_prefix self ++ ".log")

/-- `error_log_file_name or f"{self._log_files_prefix}.error.log"`. -/
def finalErrorLogFileName (self : LoggerFactory) (error_log_file_name : Option String) : String :=
  pyStrOr error_log_file_name ( LoggerFactory.log_files_prefix self ++ ".error.log")

/-- `ConcurrentTimedRotatingFileHandler(filename, when=..., backupCount=...,
encoding=...)`: opens the file in the constructor; fails for paths rejected by
the environment.  A fresh handler has no formatter and level NOTSET. -/
def mkConcurrentTimedRotatingFileHandler (env : Env) (filename : String)
    (whenSpec : String) (backupCount : Int) (encoding : String) :
    Except IOErr Handler :=
  if env.failingPaths filename then Except.error { path := filename }
  else Except.ok (Handler.file
    { filename := filename, whenSpec := whenSpec, backupCount := backupCount,
      encoding := encoding, formatter := none, level := logging.NOTSET })

/-- `LoggerFactory.get_logger` (lines 65–141 of the source), one atomic step
(the body runs under `with self._lock`).  Returns the result the caller sees
(a logger, or the propagated I/O error) together with the registry state
after the call — on failure the registry keeps the looked-up logger with its
level and propagate flag already mutated but no handler attached, exactly as
the Python code leaves it. -/
def LoggerFactory.get_logger (env : Env) (self : LoggerFactory) (reg : Registry)
    (name : String) (level : Nat)
    (log_file_name : Option String) (error_log_file_name : Option String)
    (file_log_formatter : Option Formatter)
    (stream_log_formatter : Option Formatter) :
    Except IOErr Logger × Registry :=
  let final_log_file_name := finalLogFileName self log_file_name
  let final_error_log_file_name := finalErrorLogFileName self error_log_file_name
  let final_file_formatter := file_log_formatter.getD self.file_log_formatter
  let final_stream_formatter := stream_log_formatter.getD self.stream_log_formatter
  let looked := getLogger reg name
  let logger := looked.1
  let reg1 := looked.2
  if logger.handlers ≠ [] then
    -- `if logger.handlers:` — skip configuration, only maybe lower the level.
    let logger1 := if logger.level > level then { logger with level := level } else logger
    (Except.ok logger1, setLogger reg1 name logger1)
  else
    -- first successful call for this name
    let logger1 : Logger := { logger with level := level, propagate := false }
    let reg2 := setLogger reg1 name logger1
    match mkConcurrentTimedRotatingFileHandler env final_error_log_file_name
        "midnight" self.backup_count self.encoding with
    | Except.error e => (Except.error e, reg2)
    | Except.ok h =>
      let error_log_file_handler :=
        Handler.setLevel (Handler.setFormatter h final_file_formatter) logging.ERROR
      match mkConcurrentTimedRotatingFileHandler env final_log_file_name
          "midnight" self.backup_count self.encoding with
      | Except.error e => (Except.error e, reg2)
      | Except.ok h2 =>
        let general_log_file_handler := Handler.setFormatter h2 final_file_formatter
        let stream_handler :=
          Handler.setFormatter (Handler.stream StdStream.stderr none logging.NOTSET)
            final_stream_formatter
        -- three addHandler calls, in source order
        let logger2 : Logger := { logger1 with handlers :=
          logger1.handlers ++ [general_log_file_handler, error_log_file_handler, stream_handler] }
        (Except.ok logger2, setLogger reg2 name logger2)

/-- Number of handlers attached to the logger registered under `n`. -/
def handlersCount (reg : Registry) (n : String) : Nat :=
  match lookupLogger reg n with
  | some l => l.handlers.length
  | none => 0

/-- The arguments of one `get_logger` call. -/
structure Call where
  name : String
  level : Nat
  log_file_name : Option String
  error_log_file_name : Option String
  file_log_formatter : Option Formatter
  stream_log_formatter : Option Formatter
deriving DecidableEq

/-- Run a sequence of `get_logger` calls.  Because each call's body holds the
factory lock, any concurrent schedule of a set of calls executes as some
sequence of whole bodies, i.e. as `runCalls` on some ordering of the list. -/
def runCalls (env : Env) (self : LoggerFactory) : Registry → List Call → Registry
  | reg, [] => reg
  | reg, c :: cs =>
      runCalls env self
        ( LoggerFactory.get_logger env self reg c.name c.level c.log_file_name
          c.error_log_file_name c.file_log_formatter c.stream_log_formatter).2 cs

/-- A concrete factory used by witnesses: `LoggerFactory(log_files_prefix="app")`
with the source's defaults. -/
def f0 : LoggerFactory :=
  { log_files_prefix := "app", backup_count := 7, encoding := "utf-8",
    file_log_formatter := DEFAULT_FILE_LOG_FORMATTER,
    stream_log_formatter := DEFAULT_STREAM_LOG_FORMATTER }

/-- The three handlers a first-time call attaches, in attachment order:
general file handler (no level filter), error file handler (level ERROR),
stream handler (stderr). -/
def attachedHandlers (self : LoggerFactory) (o e : Option String)
    (ff sf : Option Formatter) : List Handler :=
  [Handler.file
     { filename := finalLogFileName self o, whenSpec := "midnight",
       backupCount := self.backup_count, encoding := self.encoding,
       formatter := some (ff.getD self.file_log_formatter),
       level := logging.NOTSET },
   Handler.file
     { filename := finalErrorLogFileName self e, whenSpec := "midnight",
       backupCount := self.backup_count, encoding := self.encoding,
       formatter := some (ff.getD self.file_log_formatter),
       level := logging.ERROR },
   Handler.stream StdStream.stderr (some (sf.getD self.stream_log_formatter))
     logging.NOTSET]

/-- Concrete call used by witnesses: `get_logger("x", level=INFO)`. -/
def call1 : Call :=
  { name := "x", level := logging.INFO, log_file_name := none,
    error_log_file_name := none, file_log_formatter := none,
    stream_log_formatter := none }

/-- Concrete call used by witnesses: `get_logger("x", level=WARNING)`. -/
def call2 : Call :=
  { name := "x", level := logging.WARNING, log_file_name := none,
    error_log_file_name := none, file_log_formatter := none,
    stream_log_formatter := none }

/-- An environment in which creating `app.error.log` fails. -/
def envBadErr : Env := { failingPaths := fun s => s == "app.error.log" }

/-- A factory built with an invalid (negative) backup count. -/
def fNeg : LoggerFactory :=
  { log_files_prefix := "app", backup_count := -1, encoding := "utf-8",
    file_log_formatter := DEFAULT_FILE_LOG_FORMATTER,
    stream_log_formatter := DEFAULT_STREAM_LOG_FORMATTER }

/-- The logger `f0` configures under name `x` at level INFO with no overrides. -/
def l1 : Logger :=
  { name := "x", level := logging.INFO, propagate := false,
    handlers := attachedHandlers f0 none none none none }

/- Registry lemmas. -/

theorem lookupLogger_setLogger_self (reg : Registry) (n : String) (l : Logger) :
    lookupLogger (setLogger reg n l) n = some l := by
  induction reg with
  | nil => simp [setLogger, lookupLogger]
  | cons p rest ih =>
      obtain ⟨m, x⟩ := p
      by_cases hmn : m = n
      · simp [setLogger, lookupLogger, hmn]
      · simp [setLogger, lookupLogger, hmn, ih]

theorem lookupLogger_setLogger_ne (reg : Registry) (n m : String) (l : Logger)
    (h : m ≠ n) : lookupLogger (setLogger reg n l) m = lookupLogger reg m := by
  have hnm : ¬ n = m := fun hh => h hh.symm
  induction reg with
  | nil => simp [setLogger, lookupLogger, hnm]
  | cons p rest ih =>
      obtain ⟨k, x⟩ := p
      by_cases hkn : k = n
      · subst hkn
        simp [setLogger, lookupLogger, hnm]
      · simp [setLogger, lookupLogger, hkn, ih]

theorem lookupLogger_append_none (reg : Registry) (n : String) (l : Logger)
    (h : lookupLogger reg n = none) :
    lookupLogger (reg ++ [(n, l)]) n = some l := by
  induction reg with
  | nil => simp [lookupLogger]
  | cons p rest ih =>
      obtain ⟨k, x⟩ := p
      by_cases hkn : k = n
      · simp [lookupLogger, hkn] at h
      · simp only [lookupLogger, List.cons_append, hkn, if_neg hkn] at h ⊢
        exact ih h

theorem lookupLogger_append_ne (reg : Registry) (n m : String) (l : Logger)
    (h : m ≠ n) : lookupLogger (reg ++ [(n, l)]) m = lookupLogger reg m := by
  have hnm : ¬ n = m := fun hh => h hh.symm
  induction reg with
  | nil => simp [lookupLogger, hnm]
  | cons p rest ih =>
      obtain ⟨k, x⟩ := p
      by_cases hkm : k = m
      · simp [lookupLogger, List.cons_append, hkm]
      · simp [lookupLogger, List.cons_append, hkm, ih]

theorem getLogger_some (reg : Registry) (n : String) (l : Logger)
    (h : lookupLogger reg n = some l) : getLogger reg n = (l, reg) := by
  simp [getLogger, h]

theorem getLogger_none (reg : Registry) (n : String)
    (h : lookupLogger reg n = none) :
    getLogger reg n = (freshLogger n, reg ++ [(n, freshLogger n)]) := by
  simp [getLogger, h]

/- Branch lemmas for `get_logger`. -/

/-- Repeat-call branch: a looked-up logger that already has handlers is
returned as-is except for a possible level lowering; the registry keeps only
that level change. -/
theorem get_logger_repeat (env : Env) (self : LoggerFactory) (reg : Registry)
    (n : String) (lvl : Nat) (o e : Option String) (ff sf : Option Formatter)
    (l : Logger) (hl : lookupLogger reg n = some l) (hne : l.handlers ≠ []) :
    LoggerFactory.get_logger env self reg n lvl o e ff sf =
      (Except.ok (if l.level > lvl then { l with level := lvl } else l),
       setLogger reg n (if l.level > lvl then { l with level := lvl } else l)) := by
  simp only [LoggerFactory.get_logger, getLogger_some reg n l hl, ne_eq, hne,
    not_false_eq_true, if_true]

/-- First-configuration branch, success case: when the looked-up logger has no
handlers and both file constructions succeed, the logger gets exactly the
three `attachedHandlers`, the requested level and `propagate = false`. -/
theorem get_logger_conf_ok (env : Env) (self : LoggerFactory) (reg : Registry)
    (n : String) (lvl : Nat) (o e : Option String) (ff sf : Option Formatter)
    (lg : Logger) (reg1 : Registry)
    (hget : getLogger reg n = (lg, reg1)) (h0 : lg.handlers = [])
    (he : env.failingPaths (finalErrorLogFileName self e) = false)
    (hg : env.failingPaths (finalLogFileName self o) = false) :
    LoggerFactory.get_logger env self reg n lvl o e ff sf =
      (Except.ok
         { lg with
           level := lvl, propagate := false,
           handlers := attachedHandlers self o e ff sf },
       setLogger (setLogger reg1 n { lg with level := lvl, propagate := false }) n
         { lg with
           level := lvl, propagate := false,
           handlers := attachedHandlers self o e ff sf }) := by
  simp only [LoggerFactory.get_logger, hget, h0, ne_eq, not_true_eq_false,
    if_false, mkConcurrentTimedRotatingFileHandler, he, hg, Bool.false_eq_true,
    Handler.setFormatter, Handler.setLevel, attachedHandlers, List.nil_append]

/-- First-configuration branch, failure case: if either rotating-file-handler
construction fails, the error is returned and the registry keeps the logger
with its level and propagate flag set but no handler attached. -/
theorem get_logger_conf_err (env : Env) (self : LoggerFactory) (reg : Registry)
    (n : String) (lvl : Nat) (o e : Option String) (ff sf : Option Formatter)
    (lg : Logger) (reg1 : Registry)
    (hget : getLogger reg n = (lg, reg1)) (h0 : lg.handlers = [])
    (hf : env.failingPaths (finalErrorLogFileName self e) = true ∨
          env.failingPaths (finalLogFileName self o) = true) :
    (∃ err, (LoggerFactory.get_logger env self reg n lvl o e ff sf).1 =
      Except.error err) ∧
    (LoggerFactory.get_logger env self reg n lvl o e ff sf).2 =
      setLogger reg1 n { lg with level := lvl, propagate := false } := by
  by_cases he : env.failingPaths (finalErrorLogFileName self e) = true
  · constructor
    · refine ⟨{ path := finalErrorLogFileName self e }, ?_⟩
      simp only [LoggerFactory.get_logger, hget, h0, ne_eq, not_true_eq_false,
        if_false, mkConcurrentTimedRotatingFileHandler, he, if_true]
    · simp only [LoggerFactory.get_logger, hget, h0, ne_eq, not_true_eq_false,
        if_false, mkConcurrentTimedRotatingFileHandler, he, if_true]
  · have he' : env.failingPaths (finalErrorLogFileName self e) = false := by
      revert he
      cases env.failingPaths (finalErrorLogFileName self e) <;> simp
    have hg : env.failingPaths (finalLogFileName self o) = true := by
      rcases hf with h | h
      · exact absurd h he
      · exact h
    constructor
    · refine ⟨{ path := finalLogFileName self o }, ?_⟩
      simp only [LoggerFactory.get_logger, hget, h0, ne_eq, not_true_eq_false,
        if_false, mkConcurrentTimedRotatingFileHandler, he', hg,
        Bool.false_eq_true, if_true]
    · simp only [LoggerFactory.get_logger, hget, h0, ne_eq, not_true_eq_false,
        if_false, mkConcurrentTimedRotatingFileHandler, he', hg,
        Bool.false_eq_true, if_true]

/- Shape invariants over all reachable registries. -/

/-- Either unconfigured, or the general file handler has no level filter
(NOTSET) and the error file handler's filter is ERROR. -/
def errorFilterOk (l : Logger) : Bool :=
  match l.handlers with
  | [] => true
  | [Handler.file gd, Handler.file ed, Handler.stream _ _ _] =>
      gd.level == logging.NOTSET && ed.level == logging.ERROR
  | _ => false

/-- Either unconfigured, or the third handler is a stream handler on stderr
with no level filter. -/
def consoleOk (l : Logger) : Bool :=
  match l.handlers with
  | [] => true
  | [Handler.file _, Handler.file _, Handler.stream s _ slv] =>
      s == StdStream.stderr && slv == logging.NOTSET
  | _ => false

/-- A logger with handlers attached has `propagate = false`. -/
def propagateOk (l : Logger) : Bool :=
  l.handlers.isEmpty || !l.propagate

def loggerShapeOk (l : Logger) : Bool :=
  errorFilterOk l && consoleOk l && propagateOk l

/-- Every logger registered so far satisfies the shape invariant. -/
def regOk (reg : Registry) : Prop :=
  ∀ n l, lookupLogger reg n = some l → loggerShapeOk l = true

theorem loggerShapeOk_of_empty (l : Logger) (h : l.handlers = []) :
    loggerShapeOk l = true := by
  simp [loggerShapeOk, errorFilterOk, consoleOk, propagateOk, h]

theorem loggerShapeOk_attached (lg : Logger) (self : LoggerFactory) (lvl : Nat)
    (o e : Option String) (ff sf : Option Formatter) :
    loggerShapeOk
      { lg with
        level := lvl, propagate := false,
        handlers := attachedHandlers self o e ff sf } = true := rfl

theorem loggerShapeOk_level (l : Logger) (x : Nat) :
    loggerShapeOk { l with level := x } = loggerShapeOk l := by
  cases l
  rfl

theorem handlers_level_update (l : Logger) (p : Prop) [Decidable p] (x : Nat) :
    (if p then { l with level := x } else l).handlers = l.handlers := by
  split <;> rfl

theorem regOk_nil : regOk [] := by
  intro n l h
  simp [lookupLogger] at h

/-- One atomic `get_logger` call preserves the shape invariant. -/
theorem regOk_step (env : Env) (self : LoggerFactory) (reg : Registry)
    (n : String) (lvl : Nat) (o e : Option String) (ff sf : Option Formatter)
    (h : regOk reg) :
    regOk (LoggerFactory.get_logger env self reg n lvl o e ff sf).2 := by
  cases hl : lookupLogger reg n with
  | some l =>
      by_cases h0 : l.handlers = []
      · -- configuration path on an existing but unconfigured logger
        have hget := getLogger_some reg n l hl
        by_cases hee : env.failingPaths (finalErrorLogFileName self e) = true
        · obtain ⟨-, hreg⟩ :=
            get_logger_conf_err env self reg n lvl o e ff sf l reg hget h0 (Or.inl hee)
          intro m l2 hm
          rw [hreg] at hm
          by_cases hmn : m = n
          · subst hmn
            rw [lookupLogger_setLogger_self] at hm
            cases hm
            exact loggerShapeOk_of_empty _ h0
          · rw [lookupLogger_setLogger_ne reg n m _ hmn] at hm
            exact h m l2 hm
        · by_cases hgg : env.failingPaths (finalLogFileName self o) = true
          · obtain ⟨-, hreg⟩ :=
              get_logger_conf_err env self reg n lvl o e ff sf l reg hget h0 (Or.inr hgg)
            intro m l2 hm
            rw [hreg] at hm
            by_cases hmn : m = n
            · subst hmn
              rw [lookupLogger_setLogger_self] at hm
              cases hm
              exact loggerShapeOk_of_empty _ h0
            · rw [lookupLogger_setLogger_ne reg n m _ hmn] at hm
              exact h m l2 hm
          · have he' : env.failingPaths (finalErrorLogFileName self e) = false := by
              revert hee
              cases env.failingPaths (finalErrorLogFileName self e) <;> simp
            have hg' : env.failingPaths (finalLogFileName self o) = false := by
              revert hgg
              cases env.failingPaths (finalLogFileName self o) <;> simp
            have heq :=
              get_logger_conf_ok env self reg n lvl o e ff sf l reg hget h0 he' hg'
            intro m l2 hm
            rw [heq] at hm
            by_cases hmn : m = n
            · subst hmn
              rw [lookupLogger_setLogger_self] at hm
              cases hm
              exact loggerShapeOk_attached l self lvl o e ff sf
            · rw [lookupLogger_setLogger_ne _ n m _ hmn,
                lookupLogger_setLogger_ne reg n m _ hmn] at hm
              exact h m l2 hm
      · -- repeat path: handlers untouched, level possibly lowered
        have heq := get_logger_repeat env self reg n lvl o e ff sf l hl h0
        intro m l2 hm
        rw [heq] at hm
        by_cases hmn : m = n
        · subst hmn
          rw [lookupLogger_setLogger_self] at hm
          cases hm
          by_cases hlt : l.level > lvl
          · rw [if_pos hlt, loggerShapeOk_level]
            exact h _ l hl
          · rw [if_neg hlt]
            exact h _ l hl
        · rw [lookupLogger_setLogger_ne reg n m _ hmn] at hm
          exact h m l2 hm
  | none =>
      -- fresh name: the registry gains a new entry first
      have hget := getLogger_none reg n hl
      have h0 : (freshLogger n).handlers = [] := rfl
      have hreg1 : ∀ m, m ≠ n →
          lookupLogger (reg ++ [(n, freshLogger n)]) m = lookupLogger reg m :=
        fun m hmn => lookupLogger_append_ne reg n m _ hmn
      by_cases hee : env.failingPaths (finalErrorLogFileName self e) = true
      · obtain ⟨-, hreg⟩ :=
          get_logger_conf_err env self reg n lvl o e ff sf _ _ hget h0 (Or.inl hee)
        intro m l2 hm
        rw [hreg] at hm
        by_cases hmn : m = n
        · subst hmn
          rw [lookupLogger_setLogger_self] at hm
          cases hm
          exact loggerShapeOk_of_empty _ h0
        · rw [lookupLogger_setLogger_ne _ n m _ hmn, hreg1 m hmn] at hm
          exact h m l2 hm
      · by_cases hgg : env.failingPaths (finalLogFileName self o) = true
        · obtain ⟨-, hreg⟩ :=
            get_logger_conf_err env self reg n lvl o e ff sf _ _ hget h0 (Or.inr hgg)
          intro m l2 hm
          rw [hreg] at hm
          by_cases hmn : m = n
          · subst hmn
            rw [lookupLogger_setLogger_self] at hm
            cases hm
            exact loggerShapeOk_of_empty _ h0
          · rw [lookupLogger_setLogger_ne _ n m _ hmn, hreg1 m hmn] at hm
            exact h m l2 hm
        · have he' : env.failingPaths (finalErrorLogFileName self e) = false := by
            revert hee
            cases env.failingPaths (finalErrorLogFileName self e) <;> simp
          have hg' : env.failingPaths (finalLogFileName self o) = false := by
            revert hgg
            cases env.failingPaths (finalLogFileName self o) <;> simp
          have heq :=
            get_logger_conf_ok env self reg n lvl o e ff sf _ _ hget h0 he' hg'
          intro m l2 hm
          rw [heq] at hm
          by_cases hmn : m = n
          · subst hmn
            rw [lookupLogger_setLogger_self] at hm
            cases hm
            exact loggerShapeOk_attached _ self lvl o e ff sf
          · rw [lookupLogger_setLogger_ne _ n m _ hmn,
              lookupLogger_setLogger_ne _ n m _ hmn, hreg1 m hmn] at hm
            exact h m l2 hm

/-- Any sequence of atomic `get_logger` calls preserves the shape invariant. -/
theorem regOk_runCalls (env : Env) (self : LoggerFactory) (calls : List Call)
    (reg : Registry) (h : regOk reg) : regOk (runCalls env self reg calls) := by
  induction calls generalizing reg with
  | nil => exact h
  | cons c cs ih =>
      exact ih _ (regOk_step env self reg c.name c.level c.log_file_name
        c.error_log_file_name c.file_log_formatter c.stream_log_formatter h)

/-- Once a logger has handlers, further calls addressed to its name leave the
handler list untouched. -/
theorem runCalls_preserves_handlers (env : Env) (self : LoggerFactory)
    (calls : List Call) (n : String) :
    ∀ (reg : Registry) (l : Logger),
      (∀ c ∈ calls, c.name = n) →
      lookupLogger reg n = some l → l.handlers ≠ [] →
      ∃ l2, lookupLogger (runCalls env self reg calls) n = some l2 ∧
        l2.handlers = l.handlers := by
  induction calls with
  | nil => exact fun reg l _ hl _ => ⟨l, hl, rfl⟩
  | cons c cs ih =>
      intro reg l hall hl hne
      have hc : c.name = n := hall c (List.mem_cons_self c cs)
      have hl' : lookupLogger reg c.name = some l := by rw [hc]; exact hl
      have heq := get_logger_repeat env self reg c.name c.level c.log_file_name
        c.error_log_file_name c.file_log_formatter c.stream_log_formatter l hl' hne
      have hstep : lookupLogger
          ( LoggerFactory.get_logger env self reg c.name c.level c.log_file_name
            c.error_log_file_name c.file_log_formatter c.stream_log_formatter).2 n =
          some (if l.level > c.level then { l with level := c.level } else l) := by
        rw [heq, ← hc]
        exact lookupLogger_setLogger_self reg c.name _
      have hh : (if l.level > c.level then { l with level := c.level } else l).handlers =
          l.handlers := handlers_level_update l _ _
      have hne2 : (if l.level > c.level then { l with level := c.level } else l).handlers ≠ [] := by
        rw [hh]
        exact hne
      obtain ⟨l2, hl2, hh2⟩ := ih _ _ (fun d hd => hall d (List.mem_cons_of_mem c hd))
        hstep hne2
      exact ⟨l2, hl2, by rw [hh2, hh]⟩

/- Claim theorems. -/

/-- C4: one-directional level adjustment on repeat calls — when the logger
named `n` already has handlers and current minimum level `l.level`, a call at
level `lvl` returns the existing logger with level lowered exactly when
`lvl` is numerically lower, leaves handlers (hence sinks, formatters, file
names) and the propagate flag untouched, and changes no other registry
entry. -/
theorem level_widening_on_repeat (env : Env) (self : LoggerFactory)
    (reg : Registry) (n : String) (lvl : Nat) (o e : Option String)
    (ff sf : Option Formatter) (l : Logger)
    (hl : lookupLogger reg n = some l) (hne : l.handlers ≠ []) :
    (LoggerFactory.get_logger env self reg n lvl o e ff sf).1 =
      Except.ok (if l.level > lvl then { l with level := lvl } else l) ∧
    (∃ l2, lookupLogger (LoggerFactory.get_logger env self reg n lvl o e ff sf).2 n =
        some l2 ∧
      l2.handlers = l.handlers ∧ l2.propagate = l.propagate ∧
      l2.level = (if l.level > lvl then lvl else l.level)) ∧
    (∀ m, m ≠ n →
      lookupLogger (LoggerFactory.get_logger env self reg n lvl o e ff sf).2 m =
        lookupLogger reg m) := by
  have heq := get_logger_repeat env self reg n lvl o e ff sf l hl hne
  refine ⟨by rw [heq], ⟨if l.level > lvl then { l with level := lvl } else l, ?_, ?_, ?_, ?_⟩, ?_⟩
  · rw [heq]
    exact lookupLogger_setLogger_self reg n _
  · exact handlers_level_update l _ _
  · split <;> rfl
  · split <;> rfl
  · intro m hmn
    rw [heq]
    exact lookupLogger_setLogger_ne reg n m _ hmn

/-- C4 witness: a repeat call at level DEBUG on a logger configured at INFO. -/
theorem level_widening_on_repeat_witness :
    lookupLogger [("x", l1)] "x" = some l1 ∧ l1.handlers ≠ [] ∧
    ((LoggerFactory.get_logger noFail f0 [("x", l1)] "x" logging.DEBUG none none none none).1 =
      Except.ok (if l1.level > logging.DEBUG then { l1 with level := logging.DEBUG } else l1) ∧
    (∃ l2, lookupLogger
        (LoggerFactory.get_logger noFail f0 [("x", l1)] "x" logging.DEBUG none none none none).2 "x" =
        some l2 ∧
      l2.handlers = l1.handlers ∧ l2.propagate = l1.propagate ∧
      l2.level = (if l1.level > logging.DEBUG then logging.DEBUG else l1.level)) ∧
    (∀ m, m ≠ "x" →
      lookupLogger
        (LoggerFactory.get_logger noFail f0 [("x", l1)] "x" logging.DEBUG none none none none).2 m =
        lookupLogger [("x", l1)] m)) :=
  ⟨rfl, by decide,
    level_widening_on_repeat noFail f0 [("x", l1)] "x" logging.DEBUG none none none none l1
      rfl (by decide)⟩

/-- C5: atomic sink attachment on failure — if either rotating file handler's
construction fails for a first-time name, the I/O error is returned to the
caller and the registry entry for that name has no handler attached at all
(never one or two). -/
theorem atomic_attachment_on_failure (env : Env) (self : LoggerFactory)
    (reg : Registry) (n : String) (lvl : Nat) (o e : Option String)
    (ff sf : Option Formatter)
    (h0 : lookupLogger reg n = none)
    (hf : env.failingPaths (finalErrorLogFileName self e) = true ∨
          env.failingPaths (finalLogFileName self o) = true) :
    (∃ err, (LoggerFactory.get_logger env self reg n lvl o e ff sf).1 =
      Except.error err) ∧
    (∃ l, lookupLogger (LoggerFactory.get_logger env self reg n lvl o e ff sf).2 n =
        some l ∧ l.handlers = []) := by
  have hget := getLogger_none reg n h0
  obtain ⟨herr, hreg⟩ :=
    get_logger_conf_err env self reg n lvl o e ff sf _ _ hget rfl hf
  refine ⟨herr, ⟨{ freshLogger n with level := lvl, propagate := false }, ?_, rfl⟩⟩
  rw [hreg]
  exact lookupLogger_setLogger_self _ n _

/-- C5 witness: creating `app.error.log` fails for a fresh name. -/
theorem atomic_attachment_on_failure_witness :
    lookupLogger ([] : Registry) "x" = none ∧
    envBadErr.failingPaths (finalErrorLogFileName f0 none) = true ∧
    ((∃ err, (LoggerFactory.get_logger envBadErr f0 [] "x" logging.INFO none none none none).1 =
      Except.error err) ∧
    (∃ l, lookupLogger
        (LoggerFactory.get_logger envBadErr f0 [] "x" logging.INFO none none none none).2 "x" =
        some l ∧ l.handlers = [])) :=
  ⟨rfl, rfl,
    atomic_attachment_on_failure envBadErr f0 [] "x" logging.INFO none none none none rfl
      (Or.inl rfl)⟩

/-- C9 counterexample: a factory built with backup count −1 and a call with the
empty logger name succeed silently (a configured logger comes back), instead of
failing with a distinguishable error. -/
theorem invalid_config_accepted :
    ∃ l, (LoggerFactory.get_logger noFail fNeg [] "" logging.INFO none none none none).1 =
      Except.ok l ∧ l.handlers.length = 3 :=
  ⟨_, rfl, rfl⟩

/-- C9 amended: neither factory construction nor `get_logger` validates its
configuration — any backup count (negative included) is stored and forwarded
unchecked, and the empty logger name is accepted as an ordinary registry key;
with a writable filesystem the call returns a logger rather than an error. -/
theorem no_config_validation (self : LoggerFactory) (bc : Int) (reg : Registry)
    (lvl : Nat) (o e : Option String) (ff sf : Option Formatter) :
    ∃ l, (LoggerFactory.get_logger noFail { self with backup_count := bc }
      reg "" lvl o e ff sf).1 = Except.ok l := by
  cases hl : lookupLogger reg "" with
  | some l =>
      by_cases h0 : l.handlers = []
      · have heq := get_logger_conf_ok noFail { self with backup_count := bc }
          reg "" lvl o e ff sf l reg (getLogger_some reg "" l hl) h0 rfl rfl
        exact ⟨_, by rw [heq]⟩
      · have heq := get_logger_repeat noFail { self with backup_count := bc }
          reg "" lvl o e ff sf l hl h0
        exact ⟨_, by rw [heq]⟩
  | none =>
      have heq := get_logger_conf_ok noFail { self with backup_count := bc }
        reg "" lvl o e ff sf _ _ (getLogger_none reg "" hl) rfl rfl rfl
      exact ⟨_, by rw [heq]⟩

/-- C10: falsy overrides are treated as absent — passing the empty string for
`log_file_name` or `error_log_file_name` behaves exactly like passing `None`
(the factory default is used), because resolution is Python's truthiness-based
`or`. -/
theorem falsy_overrides_use_defaults (env : Env) (self : LoggerFactory)
    (reg : Registry) (n : String) (lvl : Nat) (o e : Option String)
    (ff sf : Option Formatter) :
    LoggerFactory.get_logger env self reg n lvl (some "") e ff sf =
      LoggerFactory.get_logger env self reg n lvl none e ff sf ∧
    LoggerFactory.get_logger env self reg n lvl o (some "") ff sf =
      LoggerFactory.get_logger env self reg n lvl o none ff sf :=
  ⟨rfl, rfl⟩

/-- C3 counterexample: the console handler attached by a concrete first-time
call (`f0.get_logger("x", level=INFO)`) targets the standard error stream,
which is not the standard output stream the claim names. -/
theorem console_sink_not_stdout :
    (LoggerFactory.get_logger noFail f0 [] "x" logging.INFO none none none none).1 =
      Except.ok { name := "x", level := logging.INFO, propagate := false,
                  handlers := attachedHandlers f0 none none none none } ∧
    (attachedHandlers f0 none none none none).getLast? =
      some (Handler.stream StdStream.stderr (some DEFAULT_STREAM_LOG_FORMATTER)
        logging.NOTSET) ∧
    StdStream.stderr ≠ StdStream.stdout :=
  ⟨rfl, rfl, by decide⟩

/-- C3 amended: for every first-time call to `get_logger`, the console sink
that is attached writes to the standard error stream (the CPython
`StreamHandler()` default), carrying the effective stream formatter and no
level filter. -/
theorem console_sink_is_stderr (env : Env) (self : LoggerFactory)
    (reg : Registry) (n : String) (lvl : Nat) (o e : Option String)
    (ff sf : Option Formatter)
    (h0 : lookupLogger reg n = none)
    (he : env.failingPaths (finalErrorLogFileName self e) = false)
    (hg : env.failingPaths (finalLogFileName self o) = false) :
    ∃ l, (LoggerFactory.get_logger env self reg n lvl o e ff sf).1 = Except.ok l ∧
      ∃ g eh, l.handlers = [g, eh,
        Handler.stream StdStream.stderr (some (sf.getD self.stream_log_formatter))
          logging.NOTSET] := by
  have heq := get_logger_conf_ok env self reg n lvl o e ff sf _ _
    (getLogger_none reg n h0) rfl he hg
  exact ⟨_, by rw [heq], _, _, rfl⟩

/-- C3 amended witness: the concrete call of the counterexample. -/
theorem console_sink_is_stderr_witness :
    lookupLogger ([] : Registry) "x" = none ∧
    (∃ l, (LoggerFactory.get_logger noFail f0 [] "x" logging.INFO none none none none).1 =
        Except.ok l ∧
      ∃ g eh, l.handlers = [g, eh,
        Handler.stream StdStream.stderr
          (some ( Option.getD none ( LoggerFactory.stream_log_formatter f0)))
          logging.NOTSET]) :=
  ⟨rfl, console_sink_is_stderr noFail f0 [] "x" logging.INFO none none none none rfl rfl rfl⟩

/-- C1: idempotent construction — a successful first call for an unused name
attaches exactly three handlers; a second sequential call with any level and
overrides returns the existing logger with the same handler list, so the sink
count after two calls is the count after one: three. -/
theorem get_logger_idempotent_construction (env : Env) (self : LoggerFactory)
    (reg : Registry) (n : String) (lvl lvl2 : Nat)
    (o e : Option String) (ff sf : Option Formatter)
    (o2 e2 : Option String) (ff2 sf2 : Option Formatter)
    (h0 : lookupLogger reg n = none)
    (he : env.failingPaths (finalErrorLogFileName self e) = false)
    (hg : env.failingPaths (finalLogFileName self o) = false) :
    handlersCount (LoggerFactory.get_logger env self reg n lvl o e ff sf).2 n = 3 ∧
    (∃ l1 l2,
      lookupLogger (LoggerFactory.get_logger env self reg n lvl o e ff sf).2 n =
        some l1 ∧
      (LoggerFactory.get_logger env self
        (LoggerFactory.get_logger env self reg n lvl o e ff sf).2
        n lvl2 o2 e2 ff2 sf2).1 = Except.ok l2 ∧
      l2.handlers = l1.handlers) ∧
    handlersCount (LoggerFactory.get_logger env self
      (LoggerFactory.get_logger env self reg n lvl o e ff sf).2
      n lvl2 o2 e2 ff2 sf2).2 n = 3 := by
  have heq1 := get_logger_conf_ok env self reg n lvl o e ff sf _ _
    (getLogger_none reg n h0) rfl he hg
  have hlook1 : lookupLogger (LoggerFactory.get_logger env self reg n lvl o e ff sf).2 n =
      some { freshLogger n with
             level := lvl, propagate := false,
             handlers := attachedHandlers self o e ff sf } := by
    rw [heq1]
    exact lookupLogger_setLogger_self _ n _
  have hne1 : ({ freshLogger n with
                 level := lvl, propagate := false,
                 handlers := attachedHandlers self o e ff sf } : Logger).handlers ≠ [] := by
    simp [attachedHandlers]
  have heq2 := get_logger_repeat env self _ n lvl2 o2 e2 ff2 sf2 _ hlook1 hne1
  refine ⟨?_, ⟨_, _, hlook1, by rw [heq2], handlers_level_update _ _ _⟩, ?_⟩
  · simp [handlersCount, hlook1, attachedHandlers]
  · rw [heq2]
    simp only [handlersCount, lookupLogger_setLogger_self]
    split <;> rfl

/-- C1 witness: two sequential calls for the fresh name `x`. -/
theorem get_logger_idempotent_construction_witness :
    lookupLogger ([] : Registry) "x" = none ∧
    (handlersCount
        (LoggerFactory.get_logger noFail f0 [] "x" logging.INFO none none none none).2
        "x" = 3 ∧
    (∃ l1 l2,
      lookupLogger
        (LoggerFactory.get_logger noFail f0 [] "x" logging.INFO none none none none).2
        "x" = some l1 ∧
      (LoggerFactory.get_logger noFail f0
        (LoggerFactory.get_logger noFail f0 [] "x" logging.INFO none none none none).2
        "x" logging.DEBUG none none none none).1 = Except.ok l2 ∧
      l2.handlers = l1.handlers) ∧
    handlersCount (LoggerFactory.get_logger noFail f0
      (LoggerFactory.get_logger noFail f0 [] "x" logging.INFO none none none none).2
      "x" logging.DEBUG none none none none).2 "x" = 3) :=
  ⟨rfl, get_logger_idempotent_construction noFail f0 [] "x" logging.INFO logging.DEBUG
    none none none none none none none none rfl rfl rfl⟩

/-- C2: no duplicate sinks under concurrent first-time construction — each
call body holds the factory lock, so any concurrent schedule of N calls for
the unused name `n` executes as some sequence of atomic bodies; for every such
sequence (any order, any levels and overrides, a non-failing filesystem) the
name ends with exactly 3 attached sinks, not 3×N. -/
theorem no_duplicate_sinks_under_race (self : LoggerFactory) (reg : Registry)
    (n : String) (calls : List Call)
    (hne : calls ≠ [])
    (hall : ∀ c ∈ calls, c.name = n)
    (h0 : lookupLogger reg n = none) :
    handlersCount (runCalls noFail self reg calls) n = 3 := by
  cases calls with
  | nil => exact absurd rfl hne
  | cons c cs =>
      have hc : c.name = n := hall c (List.mem_cons_self c cs)
      have h0' : lookupLogger reg c.name = none := by rw [hc]; exact h0
      have heq1 := get_logger_conf_ok noFail self reg c.name c.level c.log_file_name
        c.error_log_file_name c.file_log_formatter c.stream_log_formatter _ _
        (getLogger_none reg c.name h0') rfl rfl rfl
      have hlook1 : lookupLogger
          ( LoggerFactory.get_logger noFail self reg c.name c.level c.log_file_name
            c.error_log_file_name c.file_log_formatter c.stream_log_formatter).2 n =
          some { freshLogger c.name with
                 level := c.level, propagate := false,
                 handlers := attachedHandlers self c.log_file_name
                   c.error_log_file_name c.file_log_formatter c.stream_log_formatter } := by
        rw [heq1, ← hc]
        exact lookupLogger_setLogger_self _ c.name _
      have hne1 : ({ freshLogger c.name with
                     level := c.level, propagate := false,
                     handlers := attachedHandlers self c.log_file_name
                       c.error_log_file_name c.file_log_formatter
                       c.stream_log_formatter } : Logger).handlers ≠ [] := by
        simp [attachedHandlers]
      obtain ⟨l2, hl2, hh2⟩ := runCalls_preserves_handlers noFail self cs n _ _
        (fun d hd => hall d (List.mem_cons_of_mem c hd)) hlook1 hne1
      show handlersCount (runCalls noFail self
        ( LoggerFactory.get_logger noFail self reg c.name c.level c.log_file_name
          c.error_log_file_name c.file_log_formatter c.stream_log_formatter).2 cs) n = 3
      simp [handlersCount, hl2, hh2, attachedHandlers]

/-- C2 witness: two calls racing on the unused name `x`. -/
theorem no_duplicate_sinks_under_race_witness :
    [call1, call2] ≠ ([] : List Call) ∧
    (∀ c ∈ [call1, call2], c.name = "x") ∧
    lookupLogger ([] : Registry) "x" = none ∧
    handlersCount (runCalls noFail f0 [] [call1, call2]) "x" = 3 :=
  ⟨by decide, by decide, rfl,
    no_duplicate_sinks_under_race f0 [] "x" [call1, call2] (by decide) (by decide) rfl⟩

/-- C6: error-sink filter invariance — in every registry reachable from the
empty one by any sequence of `get_logger` calls (the only mutation path), a
registered logger either has no handlers yet or carries the three-sink set in
which the general file handler's level filter is NOTSET (no filter) and the
error file handler's level filter is ERROR. -/
theorem error_sink_filter_invariant (env : Env) (self : LoggerFactory)
    (calls : List Call) (n : String) (l : Logger)
    (h : lookupLogger (runCalls env self [] calls) n = some l) :
    errorFilterOk l = true := by
  have hOk := regOk_runCalls env self calls [] regOk_nil n l h
  simp only [loggerShapeOk, Bool.and_eq_true] at hOk
  exact hOk.1.1

/-- C6 witness: the logger configured by one concrete call. -/
theorem error_sink_filter_invariant_witness :
    lookupLogger (runCalls noFail f0 [] [call1]) "x" = some l1 ∧
    errorFilterOk l1 = true :=
  ⟨rfl, error_sink_filter_invariant noFail f0 [call1] "x" l1 rfl⟩

/-- C7: propagation permanently disabled — in every registry reachable from the
empty one by any sequence of `get_logger` calls, a logger with at least one
handler attached has `propagate = false`. -/
theorem propagate_permanently_false (env : Env) (self : LoggerFactory)
    (calls : List Call) (n : String) (l : Logger)
    (h : lookupLogger (runCalls env self [] calls) n = some l)
    (hne : l.handlers ≠ []) :
    l.propagate = false := by
  have hOk := regOk_runCalls env self calls [] regOk_nil n l h
  simp only [loggerShapeOk, Bool.and_eq_true] at hOk
  have hp := hOk.2
  simp only [propagateOk, Bool.or_eq_true] at hp
  rcases hp with hp | hp
  · cases hE : l.handlers with
    | nil => exact absurd hE hne
    | cons a t =>
        rw [hE] at hp
        simp [List.isEmpty] at hp
  · simpa using hp

/-- C7 witness: the logger configured by one concrete call. -/
theorem propagate_permanently_false_witness :
    lookupLogger (runCalls noFail f0 [] [call1]) "x" = some l1 ∧
    l1.handlers ≠ [] ∧ l1.propagate = false :=
  ⟨rfl, by decide,
    propagate_permanently_false noFail f0 [call1] "x" l1 rfl (by decide)⟩

/-- C8: override resolution — a successful first-time call attaches a general
file handler whose path is the provided (truthy) `log_file_name` override or
else `{factory prefix}.log`, an error file handler whose path is the override
or else `{factory prefix}.error.log`, and file/stream formatters that are the
per-call overrides if provided, else the factory defaults. -/
theorem override_resolution (env : Env) (self : LoggerFactory) (reg : Registry)
    (n : String) (lvl : Nat) (o e : Option String) (ff sf : Option Formatter)
    (h0 : lookupLogger reg n = none)
    (he : env.failingPaths (finalErrorLogFileName self e) = false)
    (hg : env.failingPaths (finalLogFileName self o) = false) :
    (∃ gd ed,
      (LoggerFactory.get_logger env self reg n lvl o e ff sf).1 = Except.ok
        { name := n, level := lvl, propagate := false,
          handlers := [Handler.file gd, Handler.file ed,
            Handler.stream StdStream.stderr
              (some (sf.getD self.stream_log_formatter)) logging.NOTSET] } ∧
      gd.filename = finalLogFileName self o ∧
      ed.filename = finalErrorLogFileName self e ∧
      gd.formatter = some (ff.getD self.file_log_formatter) ∧
      ed.formatter = some (ff.getD self.file_log_formatter)) ∧
    (∀ s, o = some s → s ≠ "" → finalLogFileName self o = s) ∧
    (o = none →
      finalLogFileName self o = LoggerFactory.log_files_prefix self ++ ".log") ∧
    (∀ s, e = some s → s ≠ "" → finalErrorLogFileName self e = s) ∧
    (e = none →
      finalErrorLogFileName self e =
        LoggerFactory.log_files_prefix self ++ ".error.log") := by
  have heq := get_logger_conf_ok env self reg n lvl o e ff sf _ _
    (getLogger_none reg n h0) rfl he hg
  refine ⟨⟨{ filename := finalLogFileName self o, whenSpec := "midnight",
             backupCount := self.backup_count, encoding := self.encoding,
             formatter := some (ff.getD self.file_log_formatter),
             level := logging.NOTSET },
           { filename := finalErrorLogFileName self e, whenSpec := "midnight",
             backupCount := self.backup_count, encoding := self.encoding,
             formatter := some (ff.getD self.file_log_formatter),
             level := logging.ERROR },
           ?_, rfl, rfl, rfl, rfl⟩, ?_, ?_, ?_, ?_⟩
  · rw [heq]
    rfl
  · intro s hs hsne
    subst hs
    simp [finalLogFileName, pyStrOr, hsne]
  · intro hnone
    subst hnone
    rfl
  · intro s hs hsne
    subst hs
    simp [finalErrorLogFileName, pyStrOr, hsne]
  · intro hnone
    subst hnone
    rfl

/-- C8 witness: a call with a custom general file name and no other override. -/
theorem override_resolution_witness :
    lookupLogger ([] : Registry) "x" = none ∧
    noFail.failingPaths (finalErrorLogFileName f0 none) = false ∧
    noFail.failingPaths (finalLogFileName f0 (some "custom.log")) = false ∧
    ((∃ gd ed,
      (LoggerFactory.get_logger noFail f0 [] "x" logging.INFO (some "custom.log")
        none none none).1 = Except.ok
        { name := "x", level := logging.INFO, propagate := false,
          handlers := [Handler.file gd, Handler.file ed,
            Handler.stream StdStream.stderr
              (some ( Option.getD none ( LoggerFactory.stream_log_formatter f0)))
              logging.NOTSET] } ∧
      gd.filename = finalLogFileName f0 (some "custom.log") ∧
      ed.filename = finalErrorLogFileName f0 none ∧
      gd.formatter = some ( Option.getD none ( LoggerFactory.file_log_formatter f0)) ∧
      ed.formatter = some ( Option.getD none ( LoggerFactory.file_log_formatter f0))) ∧
    (∀ s, (some "custom.log" : Option String) = some s → s ≠ "" →
      finalLogFileName f0 (some "custom.log") = s) ∧
    ((some "custom.log" : Option String) = none →
      finalLogFileName f0 (some "custom.log") =
        LoggerFactory.log_files_prefix f0 ++ ".log") ∧
    (∀ s, (none : Option String) = some s → s ≠ "" →
      finalErrorLogFileName f0 none = s) ∧
    ((none : Option String) = none →
      finalErrorLogFileName f0 none =
        LoggerFactory.log_files_prefix f0 ++ ".error.log")) :=
  ⟨rfl, rfl, rfl,
    override_resolution noFail f0 [] "x" logging.INFO (some "custom.log") none none none
      rfl rfl rfl⟩

end MPC
